import Mathlib

/-!
Verification of the Magic Sorting System code generator (`source/generate.js`).

The generator is a single deterministic compilation pass: it reads a
configuration (a list of groups, each with a `group_name`, a list of item
identifiers, an `item_frame` target and an optional `fallback`), emits one
two-line routing script per valid group and per item of a valid group, and
builds one dispatcher script (`sort.mcfunction`) whose body is a fixed header
followed by one dispatch line per processed item.  Duplicate identifiers are
tracked in three module-level maps and reported as soft errors.

The embedding below mirrors the JavaScript source: JavaScript `undefined`
values flowing into string concatenation are modelled by `Option String`
together with `jsStr` (stringification, `none ↦ "undefined"`), JavaScript
truthiness of optional strings by `jsTruthy`, `String.prototype.split` with a
one-character separator by `jsSplit`, and the three module-level objects used
as seen-sets by lists of keys.  The `forEach` loops that push onto shared
arrays are rendered as structural recursions returning the pushed elements in
order; file writes are collected as an ordered trace of named artifacts.
-/

namespace MagicSort

/-- Stringification of a possibly-undefined JavaScript string value:
`String(undefined) = "undefined"`, also the behaviour of `+` concatenation
and of property-key conversion for `x in obj` / `obj[x] = 1`. -/
def jsStr : Option String → String
  | none => "undefined"
  | some s => s

/-- JavaScript truthiness of a possibly-undefined string:
`undefined` and `""` are falsy, every other string is truthy. -/
def jsTruthy : Option String → Bool
  | none => false
  | some s => !(s == "")

/-- Splitting a character list at every occurrence of `c`
(the list-level core of JavaScript `String.prototype.split`). -/
def splitOnChar (c : Char) : List Char → List (List Char)
  | [] => [[]]
  | x :: xs =>
    if x = c then [] :: splitOnChar c xs
    else match splitOnChar c xs with
      | [] => [[x]]
      | h :: t => (x :: h) :: t

/-- JavaScript `s.split(c)` for a one-character separator `c`:
always returns at least one segment; `"".split(c) = [""]`. -/
def jsSplit (c : Char) (s : String) : List String :=
  (splitOnChar c s.data).map String.mk

/-- A group of the configuration (`config.groups[i]` in `config.json`).
Optional fields are `Option String`; an absent field is `none`. -/
structure Group where
  group_name : String
  items : List String
  item_frame : Option String
  fallback : Option String
deriving DecidableEq, Repr

/-- The configuration consumed by the generator.  `effects` absent is
modelled as `[]` (the source only iterates it when present, which is
observationally the same). -/
structure Config where
  groups : List Group
  effects : List String
  final_fallback : Option String
  group_name_in_frame : Option String
  item_name_in_frame : Option String
deriving DecidableEq, Repr

/-- The three module-level seen-sets of the source
(`all_item_ids`, `all_group_ids`, `all_item_frame_ids`), as lists of the
property keys inserted so far. -/
structure GenState where
  all_item_ids : List String
  all_group_ids : List String
  all_item_frame_ids : List String
deriving DecidableEq, Repr

/-- The state at module load: all three maps empty. -/
def GenState.empty : GenState := ⟨[], [], []⟩

/-- The four soft validation errors the generator reports via
`console.error`. -/
inductive GenError where
  | duplicateGroupId (id : String)
  | duplicateItemFrameId (id : String)
  | duplicateItemId (id : String)
  | invalidGroup (id : String)
deriving DecidableEq, Repr

/-- One `fs.writeFileSync` call, tagged by its call site:
the group-file write in the valid branch, the item-file write in the item
loop, and the final `sort.mcfunction` write. -/
inductive Artifact where
  | groupFile (filename content : String)
  | itemFile (filename content : String)
  | dispatcherFile (filename content : String)
deriving DecidableEq, Repr

/-- The file name of an emitted artifact. -/
def Artifact.filename : Artifact → String
  | .groupFile f _ => f
  | .itemFile f _ => f
  | .dispatcherFile f _ => f

/-- Whether an artifact is a per-group routing file. -/
def Artifact.isGroupFile : Artifact → Bool
  | .groupFile _ _ => true
  | _ => false

/-- Whether an artifact is a per-item routing file. -/
def Artifact.isItemFile : Artifact → Bool
  | .itemFile _ _ => true
  | _ => false

/-- A word character in the sense of the regex `\W`:
ASCII letters, digits, and underscore. -/
def isWordChar (c : Char) : Bool := c.isAlphanum || c == '_'

/-- `group.group_name.replace(/\W+/g, '')`: the derived group id keeps
exactly the word characters of the group name. -/
def groupIdOf (g : Group) : String := String.mk (g.group_name.data.filter isWordChar)

/-- The optional display-name NBT filter inserted into both selectors
(`name_selector` in the source): empty unless `name` is truthy. -/
def name_selector (name : Option String) : String :=
  if jsTruthy name then
    ",components:\x7b\"minecraft:custom_name\":\x27\"" ++ jsStr name ++ "\"\x27\x7d"
  else ""

/-- `entity_match_selector`: the predicate selector used in both lines of a
routing file. -/
def entity_match_selector (target : String) (name : Option String) : String :=
  "@e[type=minecraft:item_frame,nbt=\x7bItem:\x7bid:\"" ++ target ++ "\""
    ++ name_selector name ++ "\x7d\x7d,distance=..128]"

/-- `entity_dest_selector`: the nearest-single-target selector used as the
teleport destination. -/
def entity_dest_selector (target : String) (name : Option String) : String :=
  "@e[limit=1,sort=nearest,type=minecraft:item_frame,nbt=\x7bItem:\x7bid:\"" ++ target ++ "\""
    ++ name_selector name ++ "\x7d\x7d,distance=..128]"

/-- The two-line content written by `write_sort_file(filename,
fallback_action, target, name)` (the filename is carried by the artifact). -/
def sort_file_content (fallback_action target : String) (name : Option String) : String :=
  "execute as @s if entity " ++ entity_match_selector target name
    ++ " run teleport @s " ++ entity_dest_selector target name ++ "\n"
  ++ "execute as @s unless entity " ++ entity_match_selector target name
    ++ " run " ++ fallback_action ++ "\n"

/-- `item_id.split(":")[1]`: the derived item name, `none` (JavaScript
`undefined`) when there is no second segment. -/
def derived_item_name (item_id : String) : Option String :=
  (jsSplit ':' item_id)[1]?

/-- The per-item artifact file name `"sort_item_" + item_name + ".mcfunction"`
(the directory prefix is constant and omitted). -/
def item_artifact_name (item_id : String) : String :=
  "sort_item_" ++ jsStr (derived_item_name item_id) ++ ".mcfunction"

/-- The per-group artifact file name `"sort_" + group_id + ".mcfunction"`. -/
def group_artifact_name (gid : String) : String :=
  "sort_" ++ gid ++ ".mcfunction"

/-- The dispatch line pushed onto `sort_lines` for one item. -/
def dispatch_line (item_id : String) : String :=
  "execute as @s if entity @s[type=item,nbt=\x7bItem:\x7bid:\"" ++ item_id
    ++ "\"\x7d\x7d] run function mss:sort_item_" ++ jsStr (derived_item_name item_id)

/-- `group.fallback ? ('function mss:sort_' + group.fallback) :
config.final_fallback`. -/
def group_fallback (cfg : Config) (g : Group) : String :=
  if jsTruthy g.fallback then "function mss:sort_" ++ jsStr g.fallback
  else jsStr cfg.final_fallback

/-- The routing artifact emitted for a valid group. -/
def group_artifact (cfg : Config) (g : Group) : Artifact :=
  .groupFile (group_artifact_name (groupIdOf g))
    (sort_file_content (group_fallback cfg g) (jsStr g.item_frame) cfg.group_name_in_frame)

/-- The routing artifact emitted for one item of the group with id `gid`. -/
def item_artifact (cfg : Config) (gid item_id : String) : Artifact :=
  .itemFile (item_artifact_name item_id)
    (sort_file_content ("function mss:sort_" ++ gid) item_id cfg.item_name_in_frame)

/-- The output of the item loop of one group: the item-file writes, the
dispatch lines pushed, the duplicate-item errors, the number of
`total_items++` increments, and the final `all_item_ids` key list. -/
structure ItemsOut where
  writes : List Artifact
  lines : List String
  errors : List GenError
  count : Nat
  seen : List String
deriving DecidableEq, Repr

/-- The item loop `items.forEach(...)` of the source: every item emits its
artifact, pushes its dispatch line and increments the counter; an item whose
full id is already in `all_item_ids` additionally reports a duplicate error;
every item id is then marked as seen. -/
def processItems (cfg : Config) (gid : String) (seen : List String) :
    List String → ItemsOut
  | [] => ⟨[], [], [], 0, seen⟩
  | item_id :: rest =>
    let errs := if item_id ∈ seen then [GenError.duplicateItemId item_id] else []
    let r := processItems cfg gid (seen ++ [item_id]) rest
    ⟨item_artifact cfg gid item_id :: r.writes,
     dispatch_line item_id :: r.lines,
     errs ++ r.errors,
     r.count + 1,
     r.seen⟩

/-- The output of a whole run: the ordered trace of file writes, the final
`sort_lines`, the reported errors, `total_items`, and the final seen-state. -/
structure RunOut where
  writes : List Artifact
  lines : List String
  errors : List GenError
  total_items : Nat
  st : GenState
deriving DecidableEq, Repr

/-- One iteration of `config.groups.forEach(...)`: the duplicate-group-id
check (marking the id on pass), then the duplicate-frame check (marking the
key on pass), then the `items && items.length && target` validity test
guarding the group-file write and the item loop, with the invalid branch
reporting one error. -/
def processGroup (cfg : Config) (st : GenState) (g : Group) : RunOut :=
  let gid := groupIdOf g
  if gid ∈ st.all_group_ids then
    ⟨[], [], [.duplicateGroupId gid], 0, st⟩
  else
    let st1 : GenState := { st with all_group_ids := st.all_group_ids ++ [gid] }
    let key := jsStr g.item_frame
    if key ∈ st1.all_item_frame_ids then
      ⟨[], [], [.duplicateItemFrameId key], 0, st1⟩
    else
      let st2 : GenState := { st1 with all_item_frame_ids := st1.all_item_frame_ids ++ [key] }
      if !g.items.isEmpty && jsTruthy g.item_frame then
        let r := processItems cfg gid st2.all_item_ids g.items
        ⟨group_artifact cfg g :: r.writes, r.lines, r.errors, r.count,
         { st2 with all_item_ids := r.seen }⟩
      else
        ⟨[], [], [.invalidGroup gid], 0, st2⟩

/-- The group loop, threading the seen-state and concatenating all pushed
output in order. -/
def runGroups (cfg : Config) (st : GenState) : List Group → RunOut
  | [] => ⟨[], [], [], 0, st⟩
  | g :: gs =>
    let r1 := processGroup cfg st g
    let r2 := runGroups cfg r1.st gs
    ⟨r1.writes ++ r2.writes, r1.lines ++ r2.lines, r1.errors ++ r2.errors,
     r1.total_items + r2.total_items, r2.st⟩

/-- The dispatcher header built before the group loop: title, description
with group count and names, one gated line per configured effect, and the
cooldown-setting line. -/
def initial_sort_lines (cfg : Config) : List String :=
  ["# Magic Sorting System v2.0 -- Sort Single Item",
   "# Expects input @s from previous execute / run",
   "# " ++ toString cfg.groups.length ++ " Groups: "
     ++ String.intercalate ", " (cfg.groups.map Group.group_name),
   ""]
  ++ cfg.effects.map
      (fun e => "execute at @s unless score #mss_cooldown mss_cooldown matches 1 run " ++ e)
  ++ ["scoreboard players set #mss_cooldown mss_cooldown 1", ""]

/-- One compilation run from seen-state `st`: the group loop followed by the
write of the finalized dispatcher `sort.mcfunction`
(`sort_lines.join("\n") + "\n"`). -/
def compile (cfg : Config) (st : GenState) : RunOut :=
  let r := runGroups cfg st cfg.groups
  let lines := initial_sort_lines cfg ++ r.lines
  ⟨r.writes ++ [.dispatcherFile "sort.mcfunction" (String.intercalate "\n" lines ++ "\n")],
   lines, r.errors, r.total_items, r.st⟩

/-- The groups that survive all three checks (duplicate group id, duplicate
frame key, validity), threading the two key lists exactly as the run does:
a stateless re-derivation used to state the counting claims. -/
def selectValid (gids fids : List String) : List Group → List Group
  | [] => []
  | g :: gs =>
    let gid := groupIdOf g
    if gid ∈ gids then selectValid gids fids gs
    else
      let key := jsStr g.item_frame
      if key ∈ fids then selectValid (gids ++ [gid]) fids gs
      else if !g.items.isEmpty && jsTruthy g.item_frame then
        g :: selectValid (gids ++ [gid]) (fids ++ [key]) gs
      else selectValid (gids ++ [gid]) (fids ++ [key]) gs

/-- The duplicate-item errors the item loop reports, given the item ids seen
so far. -/
def dupItemErrors (seen : List String) : List String → List GenError
  | [] => []
  | x :: xs =>
    (if x ∈ seen then [GenError.duplicateItemId x] else []) ++ dupItemErrors (seen ++ [x]) xs

/-- Number of newline characters in a string. -/
def countNL (s : String) : Nat := s.data.count '\n'

/-! ### Shared lemmas about the item loop and one group step -/

theorem processItems_spec (cfg : Config) (gid : String) :
    ∀ (l : List String) (seen : List String),
    processItems cfg gid seen l =
      ⟨l.map (item_artifact cfg gid), l.map dispatch_line,
       dupItemErrors seen l, l.length, seen ++ l⟩
  | [], seen => by simp [processItems, dupItemErrors]
  | x :: xs, seen => by
      simp [processItems, dupItemErrors,
        processItems_spec cfg gid xs (seen ++ [x])]

theorem processGroup_dup_gid (cfg : Config) (st : GenState) (g : Group)
    (h1 : groupIdOf g ∈ st.all_group_ids) :
    processGroup cfg st g = ⟨[], [], [.duplicateGroupId (groupIdOf g)], 0, st⟩ := by
  simp [processGroup, h1]

theorem processGroup_dup_frame (cfg : Config) (st : GenState) (g : Group)
    (h1 : groupIdOf g ∉ st.all_group_ids)
    (h2 : jsStr g.item_frame ∈ st.all_item_frame_ids) :
    processGroup cfg st g =
      ⟨[], [], [.duplicateItemFrameId (jsStr g.item_frame)], 0,
       ⟨st.all_item_ids, st.all_group_ids ++ [groupIdOf g], st.all_item_frame_ids⟩⟩ := by
  simp [processGroup, h1, h2]

theorem processGroup_invalid (cfg : Config) (st : GenState) (g : Group)
    (h1 : groupIdOf g ∉ st.all_group_ids)
    (h2 : jsStr g.item_frame ∉ st.all_item_frame_ids)
    (h3 : (!g.items.isEmpty && jsTruthy g.item_frame) = false) :
    processGroup cfg st g =
      ⟨[], [], [.invalidGroup (groupIdOf g)], 0,
       ⟨st.all_item_ids, st.all_group_ids ++ [groupIdOf g],
        st.all_item_frame_ids ++ [jsStr g.item_frame]⟩⟩ := by
  simp [processGroup, h1, h2, h3]

theorem processGroup_valid (cfg : Config) (st : GenState) (g : Group)
    (h1 : groupIdOf g ∉ st.all_group_ids)
    (h2 : jsStr g.item_frame ∉ st.all_item_frame_ids)
    (h3 : (!g.items.isEmpty && jsTruthy g.item_frame) = true) :
    processGroup cfg st g =
      ⟨group_artifact cfg g :: g.items.map (item_artifact cfg (groupIdOf g)),
       g.items.map dispatch_line,
       dupItemErrors st.all_item_ids g.items,
       g.items.length,
       ⟨st.all_item_ids ++ g.items, st.all_group_ids ++ [groupIdOf g],
        st.all_item_frame_ids ++ [jsStr g.item_frame]⟩⟩ := by
  simp [processGroup, h1, h2, h3, processItems_spec]

/-! ### Refinement of the group loop -/

theorem runGroups_lines (cfg : Config) :
    ∀ (l : List Group) (st : GenState),
    (runGroups cfg st l).lines =
      ((selectValid st.all_group_ids st.all_item_frame_ids l).map
        (fun g => g.items.map dispatch_line)).flatten
  | [], st => by simp [runGroups, selectValid]
  | g :: gs, st => by
    by_cases h1 : groupIdOf g ∈ st.all_group_ids
    · simp [runGroups, selectValid, h1, processGroup_dup_gid cfg st g h1,
        runGroups_lines cfg gs st]
    · by_cases h2 : jsStr g.item_frame ∈ st.all_item_frame_ids
      · simp [runGroups, selectValid, h1, h2, processGroup_dup_frame cfg st g h1 h2,
          runGroups_lines cfg gs ⟨st.all_item_ids, st.all_group_ids ++ [groupIdOf g],
            st.all_item_frame_ids⟩]
      · by_cases h3 : (!g.items.isEmpty && jsTruthy g.item_frame) = true
        · simp [runGroups, selectValid, h1, h2, h3, processGroup_valid cfg st g h1 h2 h3,
            runGroups_lines cfg gs ⟨st.all_item_ids ++ g.items,
              st.all_group_ids ++ [groupIdOf g], st.all_item_frame_ids ++ [jsStr g.item_frame]⟩]
        · simp only [Bool.not_eq_true] at h3
          simp [runGroups, selectValid, h1, h2, h3, processGroup_invalid cfg st g h1 h2 h3,
            runGroups_lines cfg gs ⟨st.all_item_ids,
              st.all_group_ids ++ [groupIdOf g], st.all_item_frame_ids ++ [jsStr g.item_frame]⟩]


theorem item_writes_no_group_file (cfg : Config) (gid : String) (l : List String) :
    (l.map (item_artifact cfg gid)).filter Artifact.isGroupFile = [] := by
  rw [List.filter_eq_nil_iff]
  intro a ha
  rcases List.mem_map.mp ha with ⟨x, _, rfl⟩
  simp [item_artifact, Artifact.isGroupFile]

theorem runGroups_group_count (cfg : Config) :
    ∀ (l : List Group) (st : GenState),
    ((runGroups cfg st l).writes.filter Artifact.isGroupFile).length =
      (selectValid st.all_group_ids st.all_item_frame_ids l).length
  | [], st => by simp [runGroups, selectValid]
  | g :: gs, st => by
    by_cases h1 : groupIdOf g ∈ st.all_group_ids
    · simp [runGroups, selectValid, h1, processGroup_dup_gid cfg st g h1,
        runGroups_group_count cfg gs st]
    · by_cases h2 : jsStr g.item_frame ∈ st.all_item_frame_ids
      · simp [runGroups, selectValid, h1, h2, processGroup_dup_frame cfg st g h1 h2,
          runGroups_group_count cfg gs ⟨st.all_item_ids, st.all_group_ids ++ [groupIdOf g],
            st.all_item_frame_ids⟩]
      · by_cases h3 : (!g.items.isEmpty && jsTruthy g.item_frame) = true
        · simp [runGroups, selectValid, h1, h2, h3, processGroup_valid cfg st g h1 h2 h3,
            List.filter_append, item_writes_no_group_file, group_artifact,
            Artifact.isGroupFile,
            runGroups_group_count cfg gs ⟨st.all_item_ids ++ g.items,
              st.all_group_ids ++ [groupIdOf g], st.all_item_frame_ids ++ [jsStr g.item_frame]⟩]
        · simp only [Bool.not_eq_true] at h3
          simp [runGroups, selectValid, h1, h2, h3, processGroup_invalid cfg st g h1 h2 h3,
            runGroups_group_count cfg gs ⟨st.all_item_ids,
              st.all_group_ids ++ [groupIdOf g], st.all_item_frame_ids ++ [jsStr g.item_frame]⟩]

theorem processGroup_gids_mono (cfg : Config) (st : GenState) (g : Group) :
    st.all_group_ids ⊆ (processGroup cfg st g).st.all_group_ids := by
  by_cases h1 : groupIdOf g ∈ st.all_group_ids
  · simp [processGroup_dup_gid cfg st g h1]
  · by_cases h2 : jsStr g.item_frame ∈ st.all_item_frame_ids
    · simp [processGroup_dup_frame cfg st g h1 h2]
    · by_cases h3 : (!g.items.isEmpty && jsTruthy g.item_frame) = true
      · simp [processGroup_valid cfg st g h1 h2 h3]
      · simp only [Bool.not_eq_true] at h3
        simp [processGroup_invalid cfg st g h1 h2 h3]

theorem processGroup_gid_mem (cfg : Config) (st : GenState) (g : Group) :
    groupIdOf g ∈ (processGroup cfg st g).st.all_group_ids := by
  by_cases h1 : groupIdOf g ∈ st.all_group_ids
  · simpa [processGroup_dup_gid cfg st g h1] using h1
  · by_cases h2 : jsStr g.item_frame ∈ st.all_item_frame_ids
    · simp [processGroup_dup_frame cfg st g h1 h2]
    · by_cases h3 : (!g.items.isEmpty && jsTruthy g.item_frame) = true
      · simp [processGroup_valid cfg st g h1 h2 h3]
      · simp only [Bool.not_eq_true] at h3
        simp [processGroup_invalid cfg st g h1 h2 h3]

theorem runGroups_gids_mono (cfg : Config) :
    ∀ (l : List Group) (st : GenState),
    st.all_group_ids ⊆ (runGroups cfg st l).st.all_group_ids
  | [], st => by simp [runGroups]
  | g :: gs, st => by
    simp only [runGroups]
    exact (processGroup_gids_mono cfg st g).trans
      (runGroups_gids_mono cfg gs (processGroup cfg st g).st)

theorem runGroups_gid_mem (cfg : Config) :
    ∀ (l : List Group) (st : GenState) (g : Group), g ∈ l →
    groupIdOf g ∈ (runGroups cfg st l).st.all_group_ids
  | g' :: gs, st, g, hg => by
    simp only [runGroups]
    rcases List.mem_cons.mp hg with rfl | hmem
    · exact runGroups_gids_mono cfg gs (processGroup cfg st g).st
        (processGroup_gid_mem cfg st g)
    · exact runGroups_gid_mem cfg gs (processGroup cfg st g').st g hmem

theorem runGroups_all_dup (cfg : Config) :
    ∀ (l : List Group) (st : GenState),
    (∀ g ∈ l, groupIdOf g ∈ st.all_group_ids) →
    runGroups cfg st l =
      ⟨[], [], l.map (fun g => .duplicateGroupId (groupIdOf g)), 0, st⟩
  | [], st, _ => by simp [runGroups]
  | g :: gs, st, h => by
    have h1 : groupIdOf g ∈ st.all_group_ids := h g (List.mem_cons_self g gs)
    simp [runGroups, processGroup_dup_gid cfg st g h1,
      runGroups_all_dup cfg gs st (fun g' hg' => h g' (List.mem_cons_of_mem g hg'))]


/-! ### Concrete configurations used in counterexamples and witnesses -/

/-- Two items whose identifiers differ only in the namespace segment. -/
def cfgC1 : Config := ⟨[⟨"Group1", ["a:iron", "b:iron"], some "frame1", none⟩], [], none, none, none⟩

/-- The valid group containing the same item identifier twice. -/
def gC2 : Group := ⟨"G", ["a:x", "a:x"], some "f", none⟩

/-- A configuration whose single group lists the same item twice. -/
def cfgC2 : Config := ⟨[gC2], [], none, none, none⟩

/-- Two groups that both lack an `item_frame` (and have empty `items`). -/
def cfgC3 : Config := ⟨[⟨"A", [], none, none⟩, ⟨"B", [], none, none⟩], [], none, none, none⟩

/-- Three groups: the second shares the first's frame (and is skipped), the
third derives the same group id as the second. -/
def cfgC4 : Config :=
  ⟨[⟨"A", ["a:x"], some "f", none⟩, ⟨"B", ["b:y"], some "f", none⟩,
    ⟨"B!", ["c:z"], some "g", none⟩], [], none, none, none⟩

/-- A single valid group with one item, for the double-compilation run. -/
def cfgC9 : Config := ⟨[⟨"G", ["a:x"], some "f", none⟩], [], none, none, none⟩

/-- A valid group with two colon-free item identifiers. -/
def cfgC10 : Config := ⟨[⟨"G", ["stone", "dirt"], some "f", none⟩], [], none, none, none⟩

/-! ### C1 -/

/-- C1 fails as stated: `"a:iron"` and `"b:iron"` are two distinct processed
item identifiers whose derived names are both `"iron"`, and the run emits the
per-item artifact name `sort_item_iron.mcfunction` twice (the second write
overwrites the first). -/
theorem C1_counterexample :
    derived_item_name "a:iron" = some "iron"
    ∧ derived_item_name "b:iron" = some "iron"
    ∧ ("a:iron" : String) ≠ "b:iron"
    ∧ ((compile cfgC1 GenState.empty).writes.filter Artifact.isItemFile).map Artifact.filename
        = ["sort_item_iron.mcfunction", "sort_item_iron.mcfunction"] := by
  refine ⟨by decide, by decide, by decide, by decide⟩

/-- C1 (amended): per-item artifact names are determined by the derived item
name alone — two artifact names coincide exactly when the derived names
coincide, so pairwise-distinct artifact names are guaranteed only for
pairwise-distinct derived names, not for pairwise-distinct identifiers. -/
theorem C1_item_artifact_name_collision (a b : String) :
    item_artifact_name a = item_artifact_name b ↔
      jsStr (derived_item_name a) = jsStr (derived_item_name b) := by
  constructor
  · intro h
    have hd := congrArg String.data h
    simp only [item_artifact_name, String.data_append] at hd
    exact String.ext (List.append_cancel_left (List.append_cancel_right hd))
  · intro h
    simp [item_artifact_name, h]


/-! ### C2 -/

/-- C2 fails as stated: with the same item id listed twice in a valid group,
the run emits the per-item artifact twice, appends two dispatch lines,
counts both occurrences (`total_items = 2`), and reports one
`DuplicateItemId` error — the later occurrence is not reduced to
error-reporting only. -/
theorem C2_counterexample :
    (compile cfgC2 GenState.empty).total_items = 2
    ∧ ((compile cfgC2 GenState.empty).writes.filter Artifact.isItemFile).map Artifact.filename
        = ["sort_item_x.mcfunction", "sort_item_x.mcfunction"]
    ∧ (compile cfgC2 GenState.empty).errors = [.duplicateItemId "a:x"]
    ∧ (compile cfgC2 GenState.empty).lines
        = initial_sort_lines cfgC2 ++ [dispatch_line "a:x", dispatch_line "a:x"] := by
  refine ⟨by decide, by decide, by decide, by decide⟩

/-- C2 (amended): in a valid group, EVERY occurrence of an item identifier —
including every later occurrence of a duplicated one — emits the item's
routing artifact, appends a dispatch line, and increments the counter;
occurrences whose identifier was already seen additionally record a
`DuplicateItemId` error, and first occurrences record none. -/
theorem C2_every_occurrence_emits (cfg : Config) (st : GenState) (g : Group)
    (h1 : groupIdOf g ∉ st.all_group_ids)
    (h2 : jsStr g.item_frame ∉ st.all_item_frame_ids)
    (h3 : (!g.items.isEmpty && jsTruthy g.item_frame) = true) :
    (processGroup cfg st g).writes
        = group_artifact cfg g :: g.items.map (item_artifact cfg (groupIdOf g))
    ∧ (processGroup cfg st g).lines = g.items.map dispatch_line
    ∧ (processGroup cfg st g).total_items = g.items.length
    ∧ (processGroup cfg st g).errors = dupItemErrors st.all_item_ids g.items := by
  rw [processGroup_valid cfg st g h1 h2 h3]
  exact ⟨rfl, rfl, rfl, rfl⟩

/-- C2 witness: the amended statement instantiated at the duplicate-item
configuration. -/
theorem C2_every_occurrence_emits_witness :
    (groupIdOf gC2 ∉ GenState.empty.all_group_ids)
    ∧ (jsStr gC2.item_frame ∉ GenState.empty.all_item_frame_ids)
    ∧ ((!gC2.items.isEmpty && jsTruthy gC2.item_frame) = true)
    ∧ ((processGroup cfgC2 GenState.empty gC2).writes
          = group_artifact cfgC2 gC2 :: gC2.items.map (item_artifact cfgC2 (groupIdOf gC2))
       ∧ (processGroup cfgC2 GenState.empty gC2).lines = gC2.items.map dispatch_line
       ∧ (processGroup cfgC2 GenState.empty gC2).total_items = gC2.items.length
       ∧ (processGroup cfgC2 GenState.empty gC2).errors
          = dupItemErrors GenState.empty.all_item_ids gC2.items) :=
  ⟨by decide, by decide, by decide,
   C2_every_occurrence_emits cfgC2 GenState.empty gC2 (by decide) (by decide) (by decide)⟩

/-! ### C3 -/

/-- C3 fails as stated: in `cfgC3` both groups lack an `item_frame` and have
empty `items`, and neither group id duplicates the other, yet only the first
group gets an `InvalidGroup` error — the second is reported as a duplicate
frame target (key `"undefined"`), because the frame key is recorded before
the validity check. -/
theorem C3_counterexample :
    (compile cfgC3 GenState.empty).errors
      = [.invalidGroup "A", .duplicateItemFrameId "undefined"]
    ∧ GenError.invalidGroup "B" ∉ (compile cfgC3 GenState.empty).errors := by
  refine ⟨by decide, by decide⟩

/-- C3 (amended): a group with empty `items` or an absent/empty `item_frame`
produces zero artifacts, zero dispatch lines, zero counted items and exactly
one `InvalidGroup` error — provided additionally that its frame key (absent
maps to `"undefined"`, empty to `""`) has not been recorded by an earlier
group; otherwise a duplicate-frame error is reported instead. -/
theorem C3_invalid_group_one_error (cfg : Config) (st : GenState) (g : Group)
    (h1 : groupIdOf g ∉ st.all_group_ids)
    (h2 : jsStr g.item_frame ∉ st.all_item_frame_ids)
    (h3 : (!g.items.isEmpty && jsTruthy g.item_frame) = false) :
    (processGroup cfg st g).writes = []
    ∧ (processGroup cfg st g).lines = []
    ∧ (processGroup cfg st g).total_items = 0
    ∧ (processGroup cfg st g).errors = [.invalidGroup (groupIdOf g)] := by
  rw [processGroup_invalid cfg st g h1 h2 h3]
  exact ⟨rfl, rfl, rfl, rfl⟩

/-- C3 witness: the amended statement instantiated at a first frame-less
group. -/
theorem C3_invalid_group_one_error_witness :
    (groupIdOf (⟨"A", [], none, none⟩ : Group) ∉ GenState.empty.all_group_ids)
    ∧ (jsStr (⟨"A", [], none, none⟩ : Group).item_frame ∉ GenState.empty.all_item_frame_ids)
    ∧ ((!(⟨"A", [], none, none⟩ : Group).items.isEmpty
          && jsTruthy (⟨"A", [], none, none⟩ : Group).item_frame) = false)
    ∧ ((processGroup cfgC3 GenState.empty ⟨"A", [], none, none⟩).writes = []
       ∧ (processGroup cfgC3 GenState.empty ⟨"A", [], none, none⟩).lines = []
       ∧ (processGroup cfgC3 GenState.empty ⟨"A", [], none, none⟩).total_items = 0
       ∧ (processGroup cfgC3 GenState.empty ⟨"A", [], none, none⟩).errors
          = [.invalidGroup (groupIdOf ⟨"A", [], none, none⟩)]) :=
  ⟨by decide, by decide, by decide,
   C3_invalid_group_one_error cfgC3 GenState.empty ⟨"A", [], none, none⟩
     (by decide) (by decide) (by decide)⟩

/-! ### C4 -/

/-- C4 fails as stated: in `cfgC4` the second group is skipped for a
duplicate frame target, yet its derived group id `"B"` IS recorded as seen,
so the third group (name `"B!"`, deriving to the same id `"B"`) is reported
as a duplicate group id and emits nothing — it is not processed normally. -/
theorem C4_counterexample :
    (compile cfgC4 GenState.empty).errors
      = [.duplicateItemFrameId "f", .duplicateGroupId "B"]
    ∧ ((compile cfgC4 GenState.empty).writes.filter Artifact.isGroupFile).map Artifact.filename
        = ["sort_A.mcfunction"] := by
  refine ⟨by decide, by decide⟩

/-- C4 (amended): the derived group id is marked as seen as soon as its own
duplicate check passes, BEFORE the frame check; a group skipped for a
duplicate `item_frame` therefore leaves its group id recorded (and its frame
key unrecorded), and any later group deriving the same group id is reported
as a duplicate group id and skipped. -/
theorem C4_group_id_marked_despite_frame_skip (cfg : Config) (st : GenState) (g : Group)
    (h1 : groupIdOf g ∉ st.all_group_ids)
    (h2 : jsStr g.item_frame ∈ st.all_item_frame_ids) :
    (processGroup cfg st g).writes = []
    ∧ (processGroup cfg st g).errors = [.duplicateItemFrameId (jsStr g.item_frame)]
    ∧ (processGroup cfg st g).st.all_group_ids = st.all_group_ids ++ [groupIdOf g]
    ∧ (processGroup cfg st g).st.all_item_frame_ids = st.all_item_frame_ids
    ∧ ∀ g' : Group, groupIdOf g' = groupIdOf g →
        processGroup cfg (processGroup cfg st g).st g' =
          ⟨[], [], [.duplicateGroupId (groupIdOf g')], 0, (processGroup cfg st g).st⟩ := by
  rw [processGroup_dup_frame cfg st g h1 h2]
  refine ⟨rfl, rfl, rfl, rfl, ?_⟩
  intro g' hg'
  apply processGroup_dup_gid
  rw [hg']
  exact List.mem_append_right _ (List.mem_singleton_self _)

/-- C4 witness: the amended statement instantiated at a group whose frame key
is already recorded while its group id is fresh. -/
theorem C4_group_id_marked_despite_frame_skip_witness :
    (groupIdOf (⟨"B", ["b:y"], some "f", none⟩ : Group) ∉
        (⟨["a:x"], ["A"], ["f"]⟩ : GenState).all_group_ids)
    ∧ (jsStr (⟨"B", ["b:y"], some "f", none⟩ : Group).item_frame ∈
        (⟨["a:x"], ["A"], ["f"]⟩ : GenState).all_item_frame_ids)
    ∧ ((processGroup cfgC4 ⟨["a:x"], ["A"], ["f"]⟩ ⟨"B", ["b:y"], some "f", none⟩).writes = []
       ∧ (processGroup cfgC4 ⟨["a:x"], ["A"], ["f"]⟩ ⟨"B", ["b:y"], some "f", none⟩).errors
          = [.duplicateItemFrameId (jsStr (⟨"B", ["b:y"], some "f", none⟩ : Group).item_frame)]
       ∧ (processGroup cfgC4 ⟨["a:x"], ["A"], ["f"]⟩ ⟨"B", ["b:y"], some "f", none⟩).st.all_group_ids
          = (⟨["a:x"], ["A"], ["f"]⟩ : GenState).all_group_ids
            ++ [groupIdOf ⟨"B", ["b:y"], some "f", none⟩]
       ∧ (processGroup cfgC4 ⟨["a:x"], ["A"], ["f"]⟩ ⟨"B", ["b:y"], some "f", none⟩).st.all_item_frame_ids
          = (⟨["a:x"], ["A"], ["f"]⟩ : GenState).all_item_frame_ids
       ∧ ∀ g' : Group, groupIdOf g' = groupIdOf (⟨"B", ["b:y"], some "f", none⟩ : Group) →
           processGroup cfgC4
             (processGroup cfgC4 ⟨["a:x"], ["A"], ["f"]⟩ ⟨"B", ["b:y"], some "f", none⟩).st g' =
             ⟨[], [], [.duplicateGroupId (groupIdOf g')], 0,
              (processGroup cfgC4 ⟨["a:x"], ["A"], ["f"]⟩ ⟨"B", ["b:y"], some "f", none⟩).st⟩) :=
  ⟨by decide, by decide,
   C4_group_id_marked_despite_frame_skip cfgC4 ⟨["a:x"], ["A"], ["f"]⟩
     ⟨"B", ["b:y"], some "f", none⟩ (by decide) (by decide)⟩

/-! ### C5 -/

/-- Modelled from the spec: the substring of the identifier after its FIRST
colon (reassembling every segment past the first), absent when the
identifier has no colon. -/
def spec_substring_after_first_colon (s : String) : Option String :=
  match jsSplit ':' s with
  | [] => none
  | [_] => none
  | _ :: rest => some (String.intercalate ":" rest)

/-- C5 fails as stated: for the identifier `"a:b:c"` (more than one colon)
the code derives `"b"`, not the substring after the first colon `"b:c"`, and
the per-item artifact name is `sort_item_b.mcfunction`. -/
theorem C5_counterexample :
    derived_item_name "a:b:c" = some "b"
    ∧ spec_substring_after_first_colon "a:b:c" = some "b:c"
    ∧ derived_item_name "a:b:c" ≠ spec_substring_after_first_colon "a:b:c"
    ∧ item_artifact_name "a:b:c" = "sort_item_b.mcfunction" := by
  refine ⟨by decide, by decide, by decide, by decide⟩

/-- C5 (amended): the derived item name is the SECOND colon-separated
segment of the identifier; it coincides with the substring after the first
colon exactly when the identifier contains at most one colon (at most two
segments). -/
theorem C5_derived_name_second_segment (s : String)
    (h : (jsSplit ':' s).length ≤ 2) :
    derived_item_name s = spec_substring_after_first_colon s := by
  unfold derived_item_name spec_substring_after_first_colon
  rcases hl : jsSplit ':' s with _ | ⟨a, _ | ⟨b, rest⟩⟩
  · simp
  · simp
  · have hr : rest = [] := by
      rw [hl] at h
      simp only [List.length_cons] at h
      exact List.length_eq_zero.mp (by omega)
    subst hr
    simp [show String.intercalate ":" [b] = b from rfl]

/-- C5 witness: the amended statement at a well-formed two-segment
identifier. -/
theorem C5_derived_name_second_segment_witness :
    (jsSplit ':' "minecraft:stone").length ≤ 2
    ∧ derived_item_name "minecraft:stone"
        = spec_substring_after_first_colon "minecraft:stone" :=
  ⟨by decide, C5_derived_name_second_segment "minecraft:stone" (by decide)⟩


/-! ### C6 -/

/-- C6: the finalized dispatcher body is the fixed header followed by exactly
one dispatch line per item of each group that survives the duplicate and
validity checks, in input order (groups in declaration order, items in
declaration order within their group). -/
theorem C6_dispatcher_one_line_per_item (cfg : Config) (st : GenState) :
    (compile cfg st).lines =
      initial_sort_lines cfg ++
        ((selectValid st.all_group_ids st.all_item_frame_ids cfg.groups).map
          (fun g => g.items.map dispatch_line)).flatten := by
  simp [compile, runGroups_lines]

/-! ### C7 -/

/-- C7: the number of per-group routing artifacts emitted equals the number
of groups that pass the duplicate-group-id check, the duplicate-frame check,
and the non-empty-items / present-frame validity check. -/
theorem C7_group_artifact_count (cfg : Config) (st : GenState) :
    ((compile cfg st).writes.filter Artifact.isGroupFile).length =
      (selectValid st.all_group_ids st.all_item_frame_ids cfg.groups).length := by
  simp [compile, List.filter_append, Artifact.isGroupFile, runGroups_group_count]

/-! ### C8 -/

/-- Newline count distributes over string concatenation. -/
theorem countNL_append (a b : String) : countNL (a ++ b) = countNL a + countNL b := by
  simp [countNL, String.data_append, List.count_append]

/-- C8: a routing artifact consists of exactly two newline-terminated lines
(two newline characters in total, when the interpolated target, name filter
and fallback action contain none), and one single predicate string `p` — the
entity-match selector — occurs both after `if entity` in the first line and
after `unless entity` in the second. -/
theorem C8_two_lines_same_predicate (fallback_action target : String) (name : Option String)
    (ht : countNL target = 0) (hn : countNL (name_selector name) = 0)
    (hf : countNL fallback_action = 0) :
    countNL (sort_file_content fallback_action target name) = 2
    ∧ ∃ p, sort_file_content fallback_action target name =
        "execute as @s if entity " ++ p ++ " run teleport @s "
          ++ entity_dest_selector target name ++ "\n"
          ++ "execute as @s unless entity " ++ p ++ " run " ++ fallback_action ++ "\n" := by
  constructor
  · simp only [sort_file_content, entity_match_selector, entity_dest_selector,
      countNL_append, ht, hn, hf]
    decide
  · exact ⟨entity_match_selector target name, rfl⟩

/-- C8 witness: the two-line shape at a concrete fallback, target and
display-name filter. -/
theorem C8_two_lines_same_predicate_witness :
    countNL "minecraft:item_frame_1" = 0
    ∧ countNL (name_selector (some "Ores")) = 0
    ∧ countNL "function mss:sort_G" = 0
    ∧ (countNL (sort_file_content "function mss:sort_G" "minecraft:item_frame_1" (some "Ores")) = 2
       ∧ ∃ p, sort_file_content "function mss:sort_G" "minecraft:item_frame_1" (some "Ores") =
          "execute as @s if entity " ++ p ++ " run teleport @s "
            ++ entity_dest_selector "minecraft:item_frame_1" (some "Ores") ++ "\n"
            ++ "execute as @s unless entity " ++ p ++ " run " ++ "function mss:sort_G" ++ "\n") :=
  ⟨by decide, by decide, by decide,
   C8_two_lines_same_predicate "function mss:sort_G" "minecraft:item_frame_1" (some "Ores")
     (by decide) (by decide) (by decide)⟩

/-! ### C9 -/

set_option maxRecDepth 4000 in
/-- C9 fails as stated: with the module-level seen-identifier state carried
over, the second compilation of `cfgC9` emits no per-group or per-item
artifacts, and its `sort.mcfunction` artifact has different bytes from the
first run's. -/
theorem C9_counterexample :
    (compile cfgC9 GenState.empty).writes.map Artifact.filename
      = ["sort_G.mcfunction", "sort_item_x.mcfunction", "sort.mcfunction"]
    ∧ (compile cfgC9 (compile cfgC9 GenState.empty).st).writes.map Artifact.filename
      = ["sort.mcfunction"]
    ∧ ((compile cfgC9 GenState.empty).writes.filter fun a => a.filename == "sort.mcfunction")
      ≠ ((compile cfgC9 (compile cfgC9 GenState.empty).st).writes.filter
          fun a => a.filename == "sort.mcfunction") := by
  refine ⟨by decide, by decide, by decide⟩

/-- C9 (amended): one compilation is a deterministic pure function of the
configuration and the seen-identifier state, but recompiling with the
module-level state carried over is not idempotent: every group of the second
run is reported as a duplicate group id, and the second run emits exactly
one artifact — a dispatcher whose body is the bare header with no dispatch
lines. -/
theorem C9_carried_state_second_run (cfg : Config) (st : GenState) :
    compile cfg (compile cfg st).st =
      ⟨[.dispatcherFile "sort.mcfunction"
          (String.intercalate "\n" (initial_sort_lines cfg) ++ "\n")],
       initial_sort_lines cfg,
       cfg.groups.map (fun g => .duplicateGroupId (groupIdOf g)), 0,
       (compile cfg st).st⟩ := by
  have hmem : ∀ g ∈ cfg.groups, groupIdOf g ∈ (runGroups cfg st cfg.groups).st.all_group_ids :=
    fun g hg => runGroups_gid_mem cfg cfg.groups st g hg
  have hdup := runGroups_all_dup cfg cfg.groups ((runGroups cfg st cfg.groups).st) hmem
  simp [compile, hdup]

/-! ### C10 -/

/-- Splitting a list that does not contain the separator yields the single
original segment. -/
theorem splitOnChar_of_not_mem {c : Char} :
    ∀ {l : List Char}, c ∉ l → splitOnChar c l = [l]
  | [], _ => rfl
  | x :: xs, h => by
    have hx : ¬ x = c := fun e => h (e ▸ List.mem_cons_self x xs)
    simp [splitOnChar, hx,
      splitOnChar_of_not_mem (fun hm => h (List.mem_cons_of_mem x hm))]

/-- JavaScript `split` on a separator absent from the string returns the
whole string as the only segment. -/
theorem jsSplit_no_sep (c : Char) (s : String) (h : c ∉ s.data) :
    jsSplit c s = [s] := by
  simp [jsSplit, splitOnChar_of_not_mem h]

/-- C10: for an item identifier with no colon at all, the compilation does
not fail: the derived name is absent (JavaScript `undefined`), the emitted
artifact name is the literal `sort_item_undefined.mcfunction`, the dispatch
line references `function mss:sort_item_undefined`, and two such items in
one run collide on that artifact name. -/
theorem C10_no_colon_is_undefined (item_id : String) (h : ':' ∉ item_id.data) :
    derived_item_name item_id = none
    ∧ item_artifact_name item_id = "sort_item_undefined.mcfunction"
    ∧ dispatch_line item_id =
        "execute as @s if entity @s[type=item,nbt=\x7bItem:\x7bid:\"" ++ item_id
          ++ "\"\x7d\x7d] run function mss:sort_item_undefined"
    ∧ ((compile cfgC10 GenState.empty).writes.filter Artifact.isItemFile).map Artifact.filename
        = ["sort_item_undefined.mcfunction", "sort_item_undefined.mcfunction"] := by
  have hd : derived_item_name item_id = none := by
    simp [derived_item_name, jsSplit_no_sep ':' item_id h]
  refine ⟨hd, ?_, ?_, by decide⟩
  · simp only [item_artifact_name, hd, jsStr]
    decide
  · simp only [dispatch_line, hd, jsStr, String.append_assoc]
    congr 1

/-- C10 witness: the colon-free identifier `"stone"`. -/
theorem C10_no_colon_is_undefined_witness :
    ':' ∉ "stone".data
    ∧ (derived_item_name "stone" = none
       ∧ item_artifact_name "stone" = "sort_item_undefined.mcfunction"
       ∧ dispatch_line "stone" =
          "execute as @s if entity @s[type=item,nbt=\x7bItem:\x7bid:\"" ++ "stone"
            ++ "\"\x7d\x7d] run function mss:sort_item_undefined"
       ∧ ((compile cfgC10 GenState.empty).writes.filter Artifact.isItemFile).map Artifact.filename
          = ["sort_item_undefined.mcfunction", "sort_item_undefined.mcfunction"]) :=
  ⟨by decide, C10_no_colon_is_undefined "stone" (by decide)⟩

end MagicSort
